import Mathlib

/-!
Verification development for the EKS cluster status-polling engine of
aws-k8s-tester (`eks/cluster/wait/poll.go`).

The Go functions `Poll` and `PollUpdate` each spawn a goroutine that loops:
wait (racing a timer against context cancellation and a stop channel),
issue one DescribeCluster / DescribeUpdate query, classify the result,
emit an event on a channel, and either close the channel and return or
continue.  We embed one run of that goroutine as a deterministic function
of an environment trace: for each loop iteration the environment supplies
the outcome of the context guard check, the outcome of the select wait,
the query result, and (when reached) the outcome of the initial-wait
grace select.  The run produces the ordered list of channel / callback
actions it performs, each send stamped with the model time at which the
query completed (waits advance time; queries are instantaneous in the
model, matching the spec's timing scenario), plus a flag telling whether
the run reached a `return` (`true`) or the supplied environment trace ran
out first (`false`, i.e. the loop was still going).
-/

namespace Wait

/-- Model of a Go error value as seen by the classifiers in poll.go:
either a structured `awserr.Error` (with `Code()`, `Message()` and the
full `Error()` text) or a plain error exposing only its `Error()` text. -/
inductive GoErr where
  | awsError (code message full : String)
  | plain (full : String)
deriving DecidableEq, Repr

/-- Full `Error()` text of an error, used by the free-text fallback checks. -/
def GoErr.fullText : GoErr → String
  | .awsError _ _ full => full
  | .plain full => full

/-- Helper for `strContains`: does `needle` occur as a contiguous block
of the second list? -/
def containsAux (needle : List Char) : List Char → Bool
  | [] => needle.isPrefixOf []
  | c :: rest => needle.isPrefixOf (c :: rest) || containsAux needle rest

/-- Model of Go `strings.Contains`. -/
def strContains (hay needle : String) : Bool :=
  containsAux needle.toList hay.toList

/-- Model of Go `aws.StringValue`: dereference a possibly-nil string pointer,
nil becoming the empty string. -/
def stringValue : Option String → String
  | none => ""
  | some s => s

/-- IsDeleted from poll.go: a nil error is not a deletion signal; a
structured AWS error with code `ResourceNotFoundException` and a message
starting with `No cluster found for` is; otherwise fall back to searching
the full error text for `No cluster found for name: `. -/
def IsDeleted : Option GoErr → Bool
  | none => false
  | some (.awsError code message full) =>
      if code = "ResourceNotFoundException" && message.startsWith "No cluster found for" then
        true
      else
        strContains full "No cluster found for name: "
  | some (.plain full) => strContains full "No cluster found for name: "

/-- updateNotExists from poll.go: same shape as `IsDeleted` with code
`ResourceNotFoundException`, message prefix `No update found for`, and
free-text fallback `No update found`. -/
def updateNotExists : Option GoErr → Bool
  | none => false
  | some (.awsError code message full) =>
      if code = "ResourceNotFoundException" && message.startsWith "No update found for" then
        true
      else
        strContains full "No update found"
  | some (.plain full) => strContains full "No update found"

/-- Modelled from the spec: the sentinel desired-status value of the
`eksconfig` package (not present under src/) meaning the cluster is
expected to be deleted / not exist; the special desired value for which
an absence-classified query error is success rather than failure. -/
def ClusterStatusDELETEDORNOTEXIST : String := "DELETED/NOT-EXIST"

/-- Status constant `eks.ClusterStatusFailed` of the AWS SDK (external
collaborator of poll.go). -/
def ClusterStatusFailed : String := "FAILED"

/-- Status constant `eks.UpdateStatusCancelled` of the AWS SDK. -/
def UpdateStatusCancelled : String := "Cancelled"

/-- Status constant `eks.UpdateStatusFailed` of the AWS SDK. -/
def UpdateStatusFailed : String := "Failed"

/-- The one field of `aws_eks.Cluster` that poll.go reads: `Status`,
a possibly-nil string pointer. -/
structure Cluster where
  status : Option String
deriving DecidableEq, Repr

/-- The fields of `eks.Update` that poll.go reads: `Status` and `Type`,
possibly-nil string pointers (`Type` is only logged). -/
structure Update where
  status : Option String
  typ : Option String
deriving DecidableEq, Repr

/-- Identity of an error value placed in an emitted event.  Distinct
constructors model the distinct error values poll.go constructs:
a query error forwarded as-is, `ctx.Err()`, `errors.New("wait stopped")`,
the synthetic `unexpected empty response` error, and the
`unexpected cluster update status %q` / `unexpected cluster status %q`
errors naming the observed terminal failure status. -/
inductive PollError where
  | fromQuery (e : GoErr)
  | ctxError
  | waitStopped
  | emptyResponse
  | unexpectedStatus (s : String)
deriving DecidableEq, Repr

/-- ClusterStatus event from poll.go: a possibly-nil cluster snapshot and
a possibly-nil error. -/
structure ClusterStatus where
  cluster : Option Cluster
  error : Option PollError
deriving DecidableEq, Repr

/-- UpdateStatus event from poll.go: a possibly-nil update snapshot and
a possibly-nil error. -/
structure UpdateStatus where
  update : Option Update
  error : Option PollError
deriving DecidableEq, Repr

/-- Outcome of one select wait: the timer fired, the context was
cancelled, or the stop channel was closed. -/
inductive Sig where
  | timer
  | ctxDone
  | stopped
deriving DecidableEq, Repr

/-- Result of one query call: a Go error, or a response whose payload
field (`output.Cluster` / `output.Update`) may itself be nil. -/
inductive QueryResult (α : Type) where
  | err (e : GoErr)
  | ok (payload : Option α)
deriving DecidableEq, Repr

/-- Environment input consumed by one iteration of the poll loop:
whether `ctx.Err()` was already non-nil at the loop guard, which arm of
the top select fired, the query result for this tick, and which arm of
the initial-wait grace select fired (consulted only when that select is
reached). -/
structure TickInput (α : Type) where
  guardCancelled : Bool
  sel : Sig
  query : QueryResult α
  graceSel : Sig
deriving DecidableEq, Repr

/-- Configuration of one run: the desired status value, the initial-wait
and poll-interval durations, and whether a per-tick query callback was
configured via `WithQueryFunc`. -/
structure PollConfig where
  desired : String
  initialWait : Nat
  pollInterval : Nat
  hasQueryFunc : Bool
deriving DecidableEq, Repr

/-- Mutable state of the goroutine between iterations: the current wait
duration (`waitDur`), the `first` flag guarding the one-time grace wait,
and the current model time. -/
structure LoopState where
  waitDur : Nat
  first : Bool
  now : Nat
deriving DecidableEq, Repr

/-- Observable action of a run: a send of an event on the output channel
(stamped with the model time), an invocation of the configured per-tick
callback, or the close of the channel. -/
inductive RunAction (ev : Type) where
  | send (e : ev) (t : Nat)
  | callback (t : Nat)
  | close
deriving DecidableEq, Repr

/-- Prepend already-performed actions to the result of the rest of a run. -/
def withPre {ev : Type} (pre : List (RunAction ev))
    (r : List (RunAction ev) × Bool) : List (RunAction ev) × Bool :=
  (pre ++ r.1, r.2)

/-- One run of the goroutine body of `Poll` from poll.go, from loop state
`st`, driven by the environment trace `env` (one entry per loop
iteration).  Mirrors the Go control flow line by line: the
`ctx.Err() == nil` loop guard, the three-way select on ctx.Done / stopc /
the `waitDur` timer (the first timer fire promotes `waitDur` from zero to
the poll interval), the DescribeCluster call, the `IsDeleted`
classification with its `ClusterStatusDELETEDORNOTEXIST` special case,
the nil-payload retry, the status switch (desired first, then the FAILED
case, then the non-terminal default which also runs the optional query
callback), and the one-time initial-wait grace select guarded by `first`.
Returns the performed actions and whether the goroutine returned before
the environment trace was exhausted. -/
def pollLoop (cfg : PollConfig) (st : LoopState) :
    List (TickInput Cluster) → List (RunAction ClusterStatus) × Bool
  | [] => ([], false)
  | t :: rest =>
    if t.guardCancelled then
      ([.send ⟨none, some .ctxError⟩ st.now, .close], true)
    else
      match t.sel with
      | .ctxDone => ([.send ⟨none, some .ctxError⟩ st.now, .close], true)
      | .stopped => ([.send ⟨none, some .waitStopped⟩ st.now, .close], true)
      | .timer =>
        let now := st.now + st.waitDur
        let wd := if st.waitDur = 0 then cfg.pollInterval else st.waitDur
        match t.query with
        | .err e =>
          if IsDeleted (some e) then
            if cfg.desired = ClusterStatusDELETEDORNOTEXIST then
              ([.send ⟨none, none⟩ now, .close], true)
            else
              ([.send ⟨none, some (.fromQuery e)⟩ now, .close], true)
          else
            withPre [.send ⟨none, some (.fromQuery e)⟩ now]
              (pollLoop cfg ⟨wd, st.first, now⟩ rest)
        | .ok none =>
          withPre [.send ⟨none, some .emptyResponse⟩ now]
            (pollLoop cfg ⟨wd, st.first, now⟩ rest)
        | .ok (some c) =>
          let s := stringValue c.status
          if s = cfg.desired then
            ([.send ⟨some c, none⟩ now, .close], true)
          else if s = ClusterStatusFailed then
            ([.send ⟨some c, some (.unexpectedStatus ClusterStatusFailed)⟩ now, .close], true)
          else
            let pre := RunAction.send (⟨some c, none⟩ : ClusterStatus) now ::
              (if cfg.hasQueryFunc then [RunAction.callback now] else [])
            if st.first then
              match t.graceSel with
              | .ctxDone => (pre ++ [.send ⟨none, some .ctxError⟩ now, .close], true)
              | .stopped => (pre ++ [.send ⟨none, some .waitStopped⟩ now, .close], true)
              | .timer =>
                withPre pre (pollLoop cfg ⟨wd, false, now + cfg.initialWait⟩ rest)
            else
              withPre pre (pollLoop cfg ⟨wd, st.first, now⟩ rest)

/-- Poll from poll.go: start the goroutine with a zero first wait
(`waitDur := 0`), `first := true`, at start time `t0`. -/
def Poll (cfg : PollConfig) (t0 : Nat) (env : List (TickInput Cluster)) :
    List (RunAction ClusterStatus) × Bool :=
  pollLoop cfg ⟨0, true, t0⟩ env

/-- One run of the goroutine body of `PollUpdate` from poll.go, mirroring
its Go control flow the same way `pollLoop` mirrors `Poll`.  The
differences from `pollLoop` are exactly the source's: the query is
DescribeUpdate, a query error classified by `updateNotExists` always
aborts the run with that error (there is no expected-absence success
case), and the status switch has two failure cases,
`UpdateStatusCancelled` and `UpdateStatusFailed`, tried after the desired
case. -/
def pollUpdateLoop (cfg : PollConfig) (st : LoopState) :
    List (TickInput Update) → List (RunAction UpdateStatus) × Bool
  | [] => ([], false)
  | t :: rest =>
    if t.guardCancelled then
      ([.send ⟨none, some .ctxError⟩ st.now, .close], true)
    else
      match t.sel with
      | .ctxDone => ([.send ⟨none, some .ctxError⟩ st.now, .close], true)
      | .stopped => ([.send ⟨none, some .waitStopped⟩ st.now, .close], true)
      | .timer =>
        let now := st.now + st.waitDur
        let wd := if st.waitDur = 0 then cfg.pollInterval else st.waitDur
        match t.query with
        | .err e =>
          if updateNotExists (some e) then
            ([.send ⟨none, some (.fromQuery e)⟩ now, .close], true)
          else
            withPre [.send ⟨none, some (.fromQuery e)⟩ now]
              (pollUpdateLoop cfg ⟨wd, st.first, now⟩ rest)
        | .ok none =>
          withPre [.send ⟨none, some .emptyResponse⟩ now]
            (pollUpdateLoop cfg ⟨wd, st.first, now⟩ rest)
        | .ok (some u) =>
          let s := stringValue u.status
          if s = cfg.desired then
            ([.send ⟨some u, none⟩ now, .close], true)
          else if s = UpdateStatusCancelled then
            ([.send ⟨some u, some (.unexpectedStatus UpdateStatusCancelled)⟩ now, .close], true)
          else if s = UpdateStatusFailed then
            ([.send ⟨some u, some (.unexpectedStatus UpdateStatusFailed)⟩ now, .close], true)
          else
            let pre := RunAction.send (⟨some u, none⟩ : UpdateStatus) now ::
              (if cfg.hasQueryFunc then [RunAction.callback now] else [])
            if st.first then
              match t.graceSel with
              | .ctxDone => (pre ++ [.send ⟨none, some .ctxError⟩ now, .close], true)
              | .stopped => (pre ++ [.send ⟨none, some .waitStopped⟩ now, .close], true)
              | .timer =>
                withPre pre (pollUpdateLoop cfg ⟨wd, false, now + cfg.initialWait⟩ rest)
            else
              withPre pre (pollUpdateLoop cfg ⟨wd, st.first, now⟩ rest)

/-- PollUpdate from poll.go: start the goroutine with a zero first wait,
`first := true`, at start time `t0`. -/
def PollUpdate (cfg : PollConfig) (t0 : Nat) (env : List (TickInput Update)) :
    List (RunAction UpdateStatus) × Bool :=
  pollUpdateLoop cfg ⟨0, true, t0⟩ env

/-- Predicate selecting the close action. -/
def isClose {ev : Type} : RunAction ev → Bool
  | .close => true
  | _ => false

/-- Predicate selecting callback actions. -/
def isCallback {ev : Type} : RunAction ev → Bool
  | .callback _ => true
  | _ => false

/-- Events sent on the output channel during a run, in order. -/
def sentEvents {ev : Type} : List (RunAction ev) → List ev
  | [] => []
  | .send e _ :: rest => e :: sentEvents rest
  | _ :: rest => sentEvents rest

/-- Model times at which events were sent, in order. -/
def sendTimes {ev : Type} : List (RunAction ev) → List Nat
  | [] => []
  | .send _ t :: rest => t :: sendTimes rest
  | _ :: rest => sendTimes rest

/-- An action list closes the channel exactly once, as its final action;
in particular nothing (and so no send) follows the close. -/
def ClosedExactlyOnce {ev : Type} (acts : List (RunAction ev)) : Prop :=
  ∃ pre, acts = pre ++ [RunAction.close] ∧ pre.countP isClose = 0

/-- Wait duration after a timer fire: the very first (zero) wait is
promoted to the poll interval, later waits are unchanged. -/
def nextWaitDur (cfg : PollConfig) (st : LoopState) : Nat :=
  if st.waitDur = 0 then cfg.pollInterval else st.waitDur

/-- Actions of one non-terminal successful tick: the snapshot send
followed by the callback when one is configured. -/
def tickPre {ev : Type} (e : ev) (hasCb : Bool) (n : Nat) : List (RunAction ev) :=
  RunAction.send e n :: (if hasCb then [RunAction.callback n] else [])

/-- Configuration of the spec's concrete timing scenario: desired status
ACTIVE, initial-wait 30 time units, poll interval 5, no callback. -/
def scenarioCfg : PollConfig := ⟨"ACTIVE", 30, 5, false⟩

/-- Environment of the spec's concrete timing scenario: three successful
queries returning CREATING, CREATING, ACTIVE; no cancellation and no
stop anywhere. -/
def scenarioEnv : List (TickInput Cluster) :=
  [⟨false, .timer, .ok (some ⟨some "CREATING"⟩), .timer⟩,
   ⟨false, .timer, .ok (some ⟨some "CREATING"⟩), .timer⟩,
   ⟨false, .timer, .ok (some ⟨some "ACTIVE"⟩), .timer⟩]

theorem pollLoop_guard (cfg : PollConfig) (st : LoopState) (t : TickInput Cluster)
    (rest : List (TickInput Cluster)) (hg : t.guardCancelled = true) :
    pollLoop cfg st (t :: rest) =
      ([.send ⟨none, some .ctxError⟩ st.now, .close], true) := by
  simp [pollLoop, hg]

theorem pollLoop_ctxDone (cfg : PollConfig) (st : LoopState) (t : TickInput Cluster)
    (rest : List (TickInput Cluster)) (hg : t.guardCancelled = false)
    (hs : t.sel = .ctxDone) :
    pollLoop cfg st (t :: rest) =
      ([.send ⟨none, some .ctxError⟩ st.now, .close], true) := by
  simp [pollLoop, hg, hs]

theorem pollLoop_stopped (cfg : PollConfig) (st : LoopState) (t : TickInput Cluster)
    (rest : List (TickInput Cluster)) (hg : t.guardCancelled = false)
    (hs : t.sel = .stopped) :
    pollLoop cfg st (t :: rest) =
      ([.send ⟨none, some .waitStopped⟩ st.now, .close], true) := by
  simp [pollLoop, hg, hs]

theorem pollLoop_deleted_desired (cfg : PollConfig) (st : LoopState) (t : TickInput Cluster)
    (rest : List (TickInput Cluster)) (e : GoErr) (hg : t.guardCancelled = false)
    (hs : t.sel = .timer) (hq : t.query = .err e) (hd : IsDeleted (some e) = true)
    (hdes : cfg.desired = ClusterStatusDELETEDORNOTEXIST) :
    pollLoop cfg st (t :: rest) =
      ([.send ⟨none, none⟩ (st.now + st.waitDur), .close], true) := by
  simp [pollLoop, hg, hs, hq, hd, hdes]

theorem pollLoop_deleted_other (cfg : PollConfig) (st : LoopState) (t : TickInput Cluster)
    (rest : List (TickInput Cluster)) (e : GoErr) (hg : t.guardCancelled = false)
    (hs : t.sel = .timer) (hq : t.query = .err e) (hd : IsDeleted (some e) = true)
    (hdes : cfg.desired ≠ ClusterStatusDELETEDORNOTEXIST) :
    pollLoop cfg st (t :: rest) =
      ([.send ⟨none, some (.fromQuery e)⟩ (st.now + st.waitDur), .close], true) := by
  simp [pollLoop, hg, hs, hq, hd, hdes]

theorem pollLoop_transient (cfg : PollConfig) (st : LoopState) (t : TickInput Cluster)
    (rest : List (TickInput Cluster)) (e : GoErr) (hg : t.guardCancelled = false)
    (hs : t.sel = .timer) (hq : t.query = .err e) (hd : IsDeleted (some e) = false) :
    pollLoop cfg st (t :: rest) =
      withPre [.send ⟨none, some (.fromQuery e)⟩ (st.now + st.waitDur)]
        (pollLoop cfg ⟨nextWaitDur cfg st, st.first, st.now + st.waitDur⟩ rest) := by
  simp [pollLoop, hg, hs, hq, hd, nextWaitDur]

theorem pollLoop_emptyPayload (cfg : PollConfig) (st : LoopState) (t : TickInput Cluster)
    (rest : List (TickInput Cluster)) (hg : t.guardCancelled = false)
    (hs : t.sel = .timer) (hq : t.query = .ok none) :
    pollLoop cfg st (t :: rest) =
      withPre [.send ⟨none, some .emptyResponse⟩ (st.now + st.waitDur)]
        (pollLoop cfg ⟨nextWaitDur cfg st, st.first, st.now + st.waitDur⟩ rest) := by
  simp [pollLoop, hg, hs, hq, nextWaitDur]

theorem pollLoop_desired (cfg : PollConfig) (st : LoopState) (t : TickInput Cluster)
    (rest : List (TickInput Cluster)) (c : Cluster) (hg : t.guardCancelled = false)
    (hs : t.sel = .timer) (hq : t.query = .ok (some c))
    (hst : stringValue c.status = cfg.desired) :
    pollLoop cfg st (t :: rest) =
      ([.send ⟨some c, none⟩ (st.now + st.waitDur), .close], true) := by
  simp [pollLoop, hg, hs, hq, hst]

theorem pollLoop_failed (cfg : PollConfig) (st : LoopState) (t : TickInput Cluster)
    (rest : List (TickInput Cluster)) (c : Cluster) (hg : t.guardCancelled = false)
    (hs : t.sel = .timer) (hq : t.query = .ok (some c))
    (hne : stringValue c.status ≠ cfg.desired)
    (hf : stringValue c.status = ClusterStatusFailed) :
    pollLoop cfg st (t :: rest) =
      ([.send ⟨some c, some (.unexpectedStatus ClusterStatusFailed)⟩ (st.now + st.waitDur),
        .close], true) := by
  have hne' : ¬(ClusterStatusFailed = cfg.desired) := fun hh => hne (hf.trans hh)
  simp [pollLoop, hg, hs, hq, hne', hf]

theorem pollLoop_progress_graceCtxDone (cfg : PollConfig) (st : LoopState)
    (t : TickInput Cluster) (rest : List (TickInput Cluster)) (c : Cluster)
    (hg : t.guardCancelled = false) (hs : t.sel = .timer) (hq : t.query = .ok (some c))
    (hne : stringValue c.status ≠ cfg.desired)
    (hnf : stringValue c.status ≠ ClusterStatusFailed)
    (hf : st.first = true) (hgr : t.graceSel = .ctxDone) :
    pollLoop cfg st (t :: rest) =
      (tickPre (⟨some c, none⟩ : ClusterStatus) cfg.hasQueryFunc (st.now + st.waitDur) ++
        [.send ⟨none, some .ctxError⟩ (st.now + st.waitDur), .close], true) := by
  simp [pollLoop, hg, hs, hq, hne, hnf, hf, hgr, tickPre]

theorem pollLoop_progress_graceStopped (cfg : PollConfig) (st : LoopState)
    (t : TickInput Cluster) (rest : List (TickInput Cluster)) (c : Cluster)
    (hg : t.guardCancelled = false) (hs : t.sel = .timer) (hq : t.query = .ok (some c))
    (hne : stringValue c.status ≠ cfg.desired)
    (hnf : stringValue c.status ≠ ClusterStatusFailed)
    (hf : st.first = true) (hgr : t.graceSel = .stopped) :
    pollLoop cfg st (t :: rest) =
      (tickPre (⟨some c, none⟩ : ClusterStatus) cfg.hasQueryFunc (st.now + st.waitDur) ++
        [.send ⟨none, some .waitStopped⟩ (st.now + st.waitDur), .close], true) := by
  simp [pollLoop, hg, hs, hq, hne, hnf, hf, hgr, tickPre]

theorem pollLoop_progress_graceTimer (cfg : PollConfig) (st : LoopState)
    (t : TickInput Cluster) (rest : List (TickInput Cluster)) (c : Cluster)
    (hg : t.guardCancelled = false) (hs : t.sel = .timer) (hq : t.query = .ok (some c))
    (hne : stringValue c.status ≠ cfg.desired)
    (hnf : stringValue c.status ≠ ClusterStatusFailed)
    (hf : st.first = true) (hgr : t.graceSel = .timer) :
    pollLoop cfg st (t :: rest) =
      withPre (tickPre (⟨some c, none⟩ : ClusterStatus) cfg.hasQueryFunc (st.now + st.waitDur))
        (pollLoop cfg
          ⟨nextWaitDur cfg st, false, st.now + st.waitDur + cfg.initialWait⟩ rest) := by
  simp [pollLoop, hg, hs, hq, hne, hnf, hf, hgr, tickPre, nextWaitDur]

theorem pollLoop_progress_notFirst (cfg : PollConfig) (st : LoopState)
    (t : TickInput Cluster) (rest : List (TickInput Cluster)) (c : Cluster)
    (hg : t.guardCancelled = false) (hs : t.sel = .timer) (hq : t.query = .ok (some c))
    (hne : stringValue c.status ≠ cfg.desired)
    (hnf : stringValue c.status ≠ ClusterStatusFailed)
    (hf : st.first = false) :
    pollLoop cfg st (t :: rest) =
      withPre (tickPre (⟨some c, none⟩ : ClusterStatus) cfg.hasQueryFunc (st.now + st.waitDur))
        (pollLoop cfg ⟨nextWaitDur cfg st, st.first, st.now + st.waitDur⟩ rest) := by
  simp [pollLoop, hg, hs, hq, hne, hnf, hf, tickPre, nextWaitDur]

theorem pollUpdateLoop_guard (cfg : PollConfig) (st : LoopState) (t : TickInput Update)
    (rest : List (TickInput Update)) (hg : t.guardCancelled = true) :
    pollUpdateLoop cfg st (t :: rest) =
      ([.send ⟨none, some .ctxError⟩ st.now, .close], true) := by
  simp [pollUpdateLoop, hg]

theorem pollUpdateLoop_ctxDone (cfg : PollConfig) (st : LoopState) (t : TickInput Update)
    (rest : List (TickInput Update)) (hg : t.guardCancelled = false)
    (hs : t.sel = .ctxDone) :
    pollUpdateLoop cfg st (t :: rest) =
      ([.send ⟨none, some .ctxError⟩ st.now, .close], true) := by
  simp [pollUpdateLoop, hg, hs]

theorem pollUpdateLoop_stopped (cfg : PollConfig) (st : LoopState) (t : TickInput Update)
    (rest : List (TickInput Update)) (hg : t.guardCancelled = false)
    (hs : t.sel = .stopped) :
    pollUpdateLoop cfg st (t :: rest) =
      ([.send ⟨none, some .waitStopped⟩ st.now, .close], true) := by
  simp [pollUpdateLoop, hg, hs]

theorem pollUpdateLoop_notExists (cfg : PollConfig) (st : LoopState) (t : TickInput Update)
    (rest : List (TickInput Update)) (e : GoErr) (hg : t.guardCancelled = false)
    (hs : t.sel = .timer) (hq : t.query = .err e)
    (hd : updateNotExists (some e) = true) :
    pollUpdateLoop cfg st (t :: rest) =
      ([.send ⟨none, some (.fromQuery e)⟩ (st.now + st.waitDur), .close], true) := by
  simp [pollUpdateLoop, hg, hs, hq, hd]

theorem pollUpdateLoop_transient (cfg : PollConfig) (st : LoopState) (t : TickInput Update)
    (rest : List (TickInput Update)) (e : GoErr) (hg : t.guardCancelled = false)
    (hs : t.sel = .timer) (hq : t.query = .err e)
    (hd : updateNotExists (some e) = false) :
    pollUpdateLoop cfg st (t :: rest) =
      withPre [.send ⟨none, some (.fromQuery e)⟩ (st.now + st.waitDur)]
        (pollUpdateLoop cfg ⟨nextWaitDur cfg st, st.first, st.now + st.waitDur⟩ rest) := by
  simp [pollUpdateLoop, hg, hs, hq, hd, nextWaitDur]

theorem pollUpdateLoop_emptyPayload (cfg : PollConfig) (st : LoopState)
    (t : TickInput Update) (rest : List (TickInput Update)) (hg : t.guardCancelled = false)
    (hs : t.sel = .timer) (hq : t.query = .ok none) :
    pollUpdateLoop cfg st (t :: rest) =
      withPre [.send ⟨none, some .emptyResponse⟩ (st.now + st.waitDur)]
        (pollUpdateLoop cfg ⟨nextWaitDur cfg st, st.first, st.now + st.waitDur⟩ rest) := by
  simp [pollUpdateLoop, hg, hs, hq, nextWaitDur]

theorem pollUpdateLoop_desired (cfg : PollConfig) (st : LoopState) (t : TickInput Update)
    (rest : List (TickInput Update)) (u : Update) (hg : t.guardCancelled = false)
    (hs : t.sel = .timer) (hq : t.query = .ok (some u))
    (hst : stringValue u.status = cfg.desired) :
    pollUpdateLoop cfg st (t :: rest) =
      ([.send ⟨some u, none⟩ (st.now + st.waitDur), .close], true) := by
  simp [pollUpdateLoop, hg, hs, hq, hst]

theorem pollUpdateLoop_cancelled (cfg : PollConfig) (st : LoopState) (t : TickInput Update)
    (rest : List (TickInput Update)) (u : Update) (hg : t.guardCancelled = false)
    (hs : t.sel = .timer) (hq : t.query = .ok (some u))
    (hne : stringValue u.status ≠ cfg.desired)
    (hc : stringValue u.status = UpdateStatusCancelled) :
    pollUpdateLoop cfg st (t :: rest) =
      ([.send ⟨some u, some (.unexpectedStatus UpdateStatusCancelled)⟩ (st.now + st.waitDur),
        .close], true) := by
  have hne' : ¬(UpdateStatusCancelled = cfg.desired) := fun hh => hne (hc.trans hh)
  simp [pollUpdateLoop, hg, hs, hq, hne', hc]

theorem pollUpdateLoop_failed (cfg : PollConfig) (st : LoopState) (t : TickInput Update)
    (rest : List (TickInput Update)) (u : Update) (hg : t.guardCancelled = false)
    (hs : t.sel = .timer) (hq : t.query = .ok (some u))
    (hne : stringValue u.status ≠ cfg.desired)
    (hnc : stringValue u.status ≠ UpdateStatusCancelled)
    (hf : stringValue u.status = UpdateStatusFailed) :
    pollUpdateLoop cfg st (t :: rest) =
      ([.send ⟨some u, some (.unexpectedStatus UpdateStatusFailed)⟩ (st.now + st.waitDur),
        .close], true) := by
  have hne' : ¬(UpdateStatusFailed = cfg.desired) := fun hh => hne (hf.trans hh)
  have hnc' : ¬(UpdateStatusFailed = UpdateStatusCancelled) := fun hh => hnc (hf.trans hh)
  simp [pollUpdateLoop, hg, hs, hq, hne', hnc', hf]

theorem pollUpdateLoop_progress_graceCtxDone (cfg : PollConfig) (st : LoopState)
    (t : TickInput Update) (rest : List (TickInput Update)) (u : Update)
    (hg : t.guardCancelled = false) (hs : t.sel = .timer) (hq : t.query = .ok (some u))
    (hne : stringValue u.status ≠ cfg.desired)
    (hnc : stringValue u.status ≠ UpdateStatusCancelled)
    (hnf : stringValue u.status ≠ UpdateStatusFailed)
    (hf : st.first = true) (hgr : t.graceSel = .ctxDone) :
    pollUpdateLoop cfg st (t :: rest) =
      (tickPre (⟨some u, none⟩ : UpdateStatus) cfg.hasQueryFunc (st.now + st.waitDur) ++
        [.send ⟨none, some .ctxError⟩ (st.now + st.waitDur), .close], true) := by
  simp [pollUpdateLoop, hg, hs, hq, hne, hnc, hnf, hf, hgr, tickPre]

theorem pollUpdateLoop_progress_graceStopped (cfg : PollConfig) (st : LoopState)
    (t : TickInput Update) (rest : List (TickInput Update)) (u : Update)
    (hg : t.guardCancelled = false) (hs : t.sel = .timer) (hq : t.query = .ok (some u))
    (hne : stringValue u.status ≠ cfg.desired)
    (hnc : stringValue u.status ≠ UpdateStatusCancelled)
    (hnf : stringValue u.status ≠ UpdateStatusFailed)
    (hf : st.first = true) (hgr : t.graceSel = .stopped) :
    pollUpdateLoop cfg st (t :: rest) =
      (tickPre (⟨some u, none⟩ : UpdateStatus) cfg.hasQueryFunc (st.now + st.waitDur) ++
        [.send ⟨none, some .waitStopped⟩ (st.now + st.waitDur), .close], true) := by
  simp [pollUpdateLoop, hg, hs, hq, hne, hnc, hnf, hf, hgr, tickPre]

theorem pollUpdateLoop_progress_graceTimer (cfg : PollConfig) (st : LoopState)
    (t : TickInput Update) (rest : List (TickInput Update)) (u : Update)
    (hg : t.guardCancelled = false) (hs : t.sel = .timer) (hq : t.query = .ok (some u))
    (hne : stringValue u.status ≠ cfg.desired)
    (hnc : stringValue u.status ≠ UpdateStatusCancelled)
    (hnf : stringValue u.status ≠ UpdateStatusFailed)
    (hf : st.first = true) (hgr : t.graceSel = .timer) :
    pollUpdateLoop cfg st (t :: rest) =
      withPre (tickPre (⟨some u, none⟩ : UpdateStatus) cfg.hasQueryFunc (st.now + st.waitDur))
        (pollUpdateLoop cfg
          ⟨nextWaitDur cfg st, false, st.now + st.waitDur + cfg.initialWait⟩ rest) := by
  simp [pollUpdateLoop, hg, hs, hq, hne, hnc, hnf, hf, hgr, tickPre, nextWaitDur]

theorem pollUpdateLoop_progress_notFirst (cfg : PollConfig) (st : LoopState)
    (t : TickInput Update) (rest : List (TickInput Update)) (u : Update)
    (hg : t.guardCancelled = false) (hs : t.sel = .timer) (hq : t.query = .ok (some u))
    (hne : stringValue u.status ≠ cfg.desired)
    (hnc : stringValue u.status ≠ UpdateStatusCancelled)
    (hnf : stringValue u.status ≠ UpdateStatusFailed)
    (hf : st.first = false) :
    pollUpdateLoop cfg st (t :: rest) =
      withPre (tickPre (⟨some u, none⟩ : UpdateStatus) cfg.hasQueryFunc (st.now + st.waitDur))
        (pollUpdateLoop cfg ⟨nextWaitDur cfg st, st.first, st.now + st.waitDur⟩ rest) := by
  simp [pollUpdateLoop, hg, hs, hq, hne, hnc, hnf, hf, tickPre, nextWaitDur]

theorem withPre_fst {ev : Type} (pre : List (RunAction ev))
    (r : List (RunAction ev) × Bool) : (withPre pre r).1 = pre ++ r.1 := rfl

theorem withPre_snd {ev : Type} (pre : List (RunAction ev))
    (r : List (RunAction ev) × Bool) : (withPre pre r).2 = r.2 := rfl

theorem countP_isClose_tickPre {ev : Type} (e : ev) (b : Bool) (n : Nat) :
    (tickPre e b n).countP isClose = 0 := by
  cases b <;> rfl

theorem closed_once_final2 {ev : Type} (pre : List (RunAction ev)) (e : ev) (n : Nat)
    (h : pre.countP isClose = 0) :
    ClosedExactlyOnce (pre ++ [RunAction.send e n, RunAction.close]) :=
  ⟨pre ++ [RunAction.send e n], by simp, by
    simp [List.countP_append, h, List.countP_cons, isClose]⟩

theorem closed_once_append {ev : Type} (pre acts : List (RunAction ev))
    (h0 : pre.countP isClose = 0)
    (h : ClosedExactlyOnce acts) : ClosedExactlyOnce (pre ++ acts) := by
  obtain ⟨p, hp, hc⟩ := h
  exact ⟨pre ++ p, by simp [hp], by simp [List.countP_append, h0, hc]⟩

theorem pollLoop_closed_aux (cfg : PollConfig) (st : LoopState)
    (env : List (TickInput Cluster)) :
    (pollLoop cfg st env).2 = true → ClosedExactlyOnce (pollLoop cfg st env).1 := by
  induction env generalizing st with
  | nil => intro h; simp [pollLoop] at h
  | cons t rest ih =>
    intro h
    by_cases hg : t.guardCancelled = true
    · rw [pollLoop_guard cfg st t rest hg]
      exact ⟨[_], rfl, rfl⟩
    · have hg' : t.guardCancelled = false := by simpa using hg
      cases hsel : t.sel with
      | ctxDone =>
        rw [pollLoop_ctxDone cfg st t rest hg' hsel]
        exact ⟨[_], rfl, rfl⟩
      | stopped =>
        rw [pollLoop_stopped cfg st t rest hg' hsel]
        exact ⟨[_], rfl, rfl⟩
      | timer =>
        cases hq : t.query with
        | err e =>
          by_cases hd : IsDeleted (some e) = true
          · by_cases hdes : cfg.desired = ClusterStatusDELETEDORNOTEXIST
            · rw [pollLoop_deleted_desired cfg st t rest e hg' hsel hq hd hdes]
              exact ⟨[_], rfl, rfl⟩
            · rw [pollLoop_deleted_other cfg st t rest e hg' hsel hq hd hdes]
              exact ⟨[_], rfl, rfl⟩
          · have hd' : IsDeleted (some e) = false := by simpa using hd
            rw [pollLoop_transient cfg st t rest e hg' hsel hq hd'] at h ⊢
            rw [withPre_snd] at h
            rw [withPre_fst]
            exact closed_once_append _ _ rfl (ih _ h)
        | ok payload =>
          cases payload with
          | none =>
            rw [pollLoop_emptyPayload cfg st t rest hg' hsel hq] at h ⊢
            rw [withPre_snd] at h
            rw [withPre_fst]
            exact closed_once_append _ _ rfl (ih _ h)
          | some c =>
            by_cases hst : stringValue c.status = cfg.desired
            · rw [pollLoop_desired cfg st t rest c hg' hsel hq hst]
              exact ⟨[_], rfl, rfl⟩
            · by_cases hsf : stringValue c.status = ClusterStatusFailed
              · rw [pollLoop_failed cfg st t rest c hg' hsel hq hst hsf]
                exact ⟨[_], rfl, rfl⟩
              · by_cases hf : st.first = true
                · cases hgr : t.graceSel with
                  | ctxDone =>
                    rw [pollLoop_progress_graceCtxDone cfg st t rest c hg' hsel hq hst hsf hf hgr]
                    exact closed_once_final2 _ _ _ (countP_isClose_tickPre _ _ _)
                  | stopped =>
                    rw [pollLoop_progress_graceStopped cfg st t rest c hg' hsel hq hst hsf hf hgr]
                    exact closed_once_final2 _ _ _ (countP_isClose_tickPre _ _ _)
                  | timer =>
                    rw [pollLoop_progress_graceTimer cfg st t rest c hg' hsel hq hst hsf hf hgr]
                      at h ⊢
                    rw [withPre_snd] at h
                    rw [withPre_fst]
                    exact closed_once_append _ _ (countP_isClose_tickPre _ _ _) (ih _ h)
                · have hf' : st.first = false := by simpa using hf
                  rw [pollLoop_progress_notFirst cfg st t rest c hg' hsel hq hst hsf hf'] at h ⊢
                  rw [withPre_snd] at h
                  rw [withPre_fst]
                  exact closed_once_append _ _ (countP_isClose_tickPre _ _ _) (ih _ h)

theorem pollUpdateLoop_closed_aux (cfg : PollConfig) (st : LoopState)
    (env : List (TickInput Update)) :
    (pollUpdateLoop cfg st env).2 = true → ClosedExactlyOnce (pollUpdateLoop cfg st env).1 := by
  induction env generalizing st with
  | nil => intro h; simp [pollUpdateLoop] at h
  | cons t rest ih =>
    intro h
    by_cases hg : t.guardCancelled = true
    · rw [pollUpdateLoop_guard cfg st t rest hg]
      exact ⟨[_], rfl, rfl⟩
    · have hg' : t.guardCancelled = false := by simpa using hg
      cases hsel : t.sel with
      | ctxDone =>
        rw [pollUpdateLoop_ctxDone cfg st t rest hg' hsel]
        exact ⟨[_], rfl, rfl⟩
      | stopped =>
        rw [pollUpdateLoop_stopped cfg st t rest hg' hsel]
        exact ⟨[_], rfl, rfl⟩
      | timer =>
        cases hq : t.query with
        | err e =>
          by_cases hd : updateNotExists (some e) = true
          · rw [pollUpdateLoop_notExists cfg st t rest e hg' hsel hq hd]
            exact ⟨[_], rfl, rfl⟩
          · have hd' : updateNotExists (some e) = false := by simpa using hd
            rw [pollUpdateLoop_transient cfg st t rest e hg' hsel hq hd'] at h ⊢
            rw [withPre_snd] at h
            rw [withPre_fst]
            exact closed_once_append _ _ rfl (ih _ h)
        | ok payload =>
          cases payload with
          | none =>
            rw [pollUpdateLoop_emptyPayload cfg st t rest hg' hsel hq] at h ⊢
            rw [withPre_snd] at h
            rw [withPre_fst]
            exact closed_once_append _ _ rfl (ih _ h)
          | some u =>
            by_cases hst : stringValue u.status = cfg.desired
            · rw [pollUpdateLoop_desired cfg st t rest u hg' hsel hq hst]
              exact ⟨[_], rfl, rfl⟩
            · by_cases hsc : stringValue u.status = UpdateStatusCancelled
              · rw [pollUpdateLoop_cancelled cfg st t rest u hg' hsel hq hst hsc]
                exact ⟨[_], rfl, rfl⟩
              · by_cases hsf : stringValue u.status = UpdateStatusFailed
                · rw [pollUpdateLoop_failed cfg st t rest u hg' hsel hq hst hsc hsf]
                  exact ⟨[_], rfl, rfl⟩
                · by_cases hf : st.first = true
                  · cases hgr : t.graceSel with
                    | ctxDone =>
                      rw [pollUpdateLoop_progress_graceCtxDone cfg st t rest u hg' hsel hq hst
                        hsc hsf hf hgr]
                      exact closed_once_final2 _ _ _ (countP_isClose_tickPre _ _ _)
                    | stopped =>
                      rw [pollUpdateLoop_progress_graceStopped cfg st t rest u hg' hsel hq hst
                        hsc hsf hf hgr]
                      exact closed_once_final2 _ _ _ (countP_isClose_tickPre _ _ _)
                    | timer =>
                      rw [pollUpdateLoop_progress_graceTimer cfg st t rest u hg' hsel hq hst
                        hsc hsf hf hgr] at h ⊢
                      rw [withPre_snd] at h
                      rw [withPre_fst]
                      exact closed_once_append _ _ (countP_isClose_tickPre _ _ _) (ih _ h)
                  · have hf' : st.first = false := by simpa using hf
                    rw [pollUpdateLoop_progress_notFirst cfg st t rest u hg' hsel hq hst
                      hsc hsf hf'] at h ⊢
                    rw [withPre_snd] at h
                    rw [withPre_fst]
                    exact closed_once_append _ _ (countP_isClose_tickPre _ _ _) (ih _ h)

/-- C1: for every run of Poll or PollUpdate that terminates (reaches a
`return` of the goroutine, whichever exit path it takes), the output
channel is closed exactly once, the close is the final action of the run,
and no event is sent on the channel after it is closed. -/
theorem c1_stream_closed_exactly_once :
    (∀ (cfg : PollConfig) (t0 : Nat) (env : List (TickInput Cluster)),
      (Poll cfg t0 env).2 = true → ClosedExactlyOnce (Poll cfg t0 env).1)
  ∧ (∀ (cfg : PollConfig) (t0 : Nat) (env : List (TickInput Update)),
      (PollUpdate cfg t0 env).2 = true → ClosedExactlyOnce (PollUpdate cfg t0 env).1) :=
  ⟨fun cfg t0 env h => pollLoop_closed_aux cfg ⟨0, true, t0⟩ env h,
   fun cfg t0 env h => pollUpdateLoop_closed_aux cfg ⟨0, true, t0⟩ env h⟩

/-- Witness for C1 at a concrete run: one tick that reaches the desired
status ACTIVE at once. -/
theorem c1_stream_closed_exactly_once_witness :
    ClosedExactlyOnce (Poll ⟨"ACTIVE", 30, 5, false⟩ 0
      [⟨false, .timer, .ok (some ⟨some "ACTIVE"⟩), .timer⟩]).1 :=
  c1_stream_closed_exactly_once.1 ⟨"ACTIVE", 30, 5, false⟩ 0
    [⟨false, .timer, .ok (some ⟨some "ACTIVE"⟩), .timer⟩] rfl

/-- C2 counterexample: in the spec's concrete scenario (interval 5,
initial-wait 30, desired ACTIVE, queries CREATING, CREATING, ACTIVE) the
three events are sent at times t0, t0+35 and t0+40, not at t0, t0+30 and
t0+35 as the claim states: after the first non-terminal tick the loop
waits out the initial-wait and then ALSO the poll interval before the
second query. -/
theorem c2_counterexample :
    sendTimes (Poll scenarioCfg 0 scenarioEnv).1 = [0, 35, 40] ∧
    sendTimes (Poll scenarioCfg 0 scenarioEnv).1 ≠ [0, 30, 35] := by
  constructor
  · rfl
  · decide

/-- C2 amended: with poll-interval 5, initial-wait 30, desired status
ACTIVE and a query sequence returning CREATING, CREATING, ACTIVE, Poll
emits exactly three events, at times t0, t0+35 and t0+40 (the first
query fires with zero wait; after the first non-terminal tick the loop
waits the initial-wait plus one poll interval before the second query;
the third follows after one more poll interval), and the stream closes
after the third event with no error. -/
theorem c2_amended (t0 : Nat) :
    Poll scenarioCfg t0 scenarioEnv =
      ([.send ⟨some ⟨some "CREATING"⟩, none⟩ t0,
        .send ⟨some ⟨some "CREATING"⟩, none⟩ (t0 + 35),
        .send ⟨some ⟨some "ACTIVE"⟩, none⟩ (t0 + 40),
        .close], true) := by
  show pollLoop scenarioCfg ⟨0, true, t0⟩ scenarioEnv = _
  have henv : scenarioEnv =
      (⟨false, .timer, .ok (some ⟨some "CREATING"⟩), .timer⟩ : TickInput Cluster) ::
      (⟨false, .timer, .ok (some ⟨some "CREATING"⟩), .timer⟩ : TickInput Cluster) ::
      [(⟨false, .timer, .ok (some ⟨some "ACTIVE"⟩), .timer⟩ : TickInput Cluster)] := rfl
  rw [henv]
  rw [pollLoop_progress_graceTimer scenarioCfg ⟨0, true, t0⟩ _ _ ⟨some "CREATING"⟩
    rfl rfl rfl (by decide) (by decide) rfl rfl]
  rw [pollLoop_progress_notFirst scenarioCfg _ _ _ ⟨some "CREATING"⟩
    rfl rfl rfl (by decide) (by decide) rfl]
  rw [pollLoop_desired scenarioCfg _ _ _ ⟨some "ACTIVE"⟩ rfl rfl rfl rfl]
  simp [withPre, tickPre, scenarioCfg, nextWaitDur]

/-- C3: at any point in any run of Poll, when the query fails with an
error classified as absence by IsDeleted: if the desired status is the
deleted/not-exist sentinel, the remaining actions are exactly one final
event with nil snapshot and nil error followed by the close (success);
for any other desired status they are exactly one event carrying the
query error followed by the close; in both cases no further query is
issued. -/
theorem c3_absence_classification (cfg : PollConfig) (st : LoopState)
    (t : TickInput Cluster) (rest : List (TickInput Cluster)) (e : GoErr)
    (hg : t.guardCancelled = false) (hs : t.sel = .timer)
    (hq : t.query = .err e) (hd : IsDeleted (some e) = true) :
    (cfg.desired = ClusterStatusDELETEDORNOTEXIST →
      pollLoop cfg st (t :: rest) =
        ([.send ⟨none, none⟩ (st.now + st.waitDur), .close], true))
    ∧ (cfg.desired ≠ ClusterStatusDELETEDORNOTEXIST →
      pollLoop cfg st (t :: rest) =
        ([.send ⟨none, some (.fromQuery e)⟩ (st.now + st.waitDur), .close], true)) :=
  ⟨fun hdes => pollLoop_deleted_desired cfg st t rest e hg hs hq hd hdes,
   fun hdes => pollLoop_deleted_other cfg st t rest e hg hs hq hd hdes⟩

/-- Witness for C3: a first-query absence error with the deleted/absent
desired status yields the single nil-nil success event and the close. -/
theorem c3_absence_classification_witness :
    pollLoop ⟨ClusterStatusDELETEDORNOTEXIST, 30, 5, false⟩ ⟨0, true, 0⟩
      [⟨false, .timer, .err (.plain "No cluster found for name: x"), .timer⟩] =
      ([.send ⟨none, none⟩ 0, .close], true) :=
  (c3_absence_classification ⟨ClusterStatusDELETEDORNOTEXIST, 30, 5, false⟩ ⟨0, true, 0⟩
    ⟨false, .timer, .err (.plain "No cluster found for name: x"), .timer⟩ [] _
    rfl rfl rfl (by decide)).1 rfl

/-- C5: a query error not classified as absence, and a successful query
with an empty payload, each emit exactly one error event and leave the
run going (the tick's actions are that send followed by the rest of the
run, with completion status that of the rest and the next wait on the
normal cadence); and for the concrete sequence transient error then
desired status the run emits exactly two events — the error event, then
the terminal snapshot with no error — and closes only after the second. -/
theorem c5_transient_error_retries :
    (∀ (cfg : PollConfig) (st : LoopState) (t : TickInput Cluster)
       (rest : List (TickInput Cluster)) (e : GoErr),
      t.guardCancelled = false → t.sel = .timer → t.query = .err e →
      IsDeleted (some e) = false →
      pollLoop cfg st (t :: rest) =
        withPre [.send ⟨none, some (.fromQuery e)⟩ (st.now + st.waitDur)]
          (pollLoop cfg ⟨nextWaitDur cfg st, st.first, st.now + st.waitDur⟩ rest))
  ∧ (∀ (cfg : PollConfig) (st : LoopState) (t : TickInput Cluster)
       (rest : List (TickInput Cluster)),
      t.guardCancelled = false → t.sel = .timer → t.query = .ok none →
      pollLoop cfg st (t :: rest) =
        withPre [.send ⟨none, some .emptyResponse⟩ (st.now + st.waitDur)]
          (pollLoop cfg ⟨nextWaitDur cfg st, st.first, st.now + st.waitDur⟩ rest))
  ∧ (∀ e : GoErr, IsDeleted (some e) = false →
      Poll ⟨"ACTIVE", 30, 5, false⟩ 0
        [⟨false, .timer, .err e, .timer⟩,
         ⟨false, .timer, .ok (some ⟨some "ACTIVE"⟩), .timer⟩] =
        ([.send ⟨none, some (.fromQuery e)⟩ 0,
          .send ⟨some ⟨some "ACTIVE"⟩, none⟩ 5, .close], true)) := by
  refine ⟨fun cfg st t rest e hg hs hq hd =>
      pollLoop_transient cfg st t rest e hg hs hq hd,
    fun cfg st t rest hg hs hq =>
      pollLoop_emptyPayload cfg st t rest hg hs hq, ?_⟩
  intro e hd
  show pollLoop _ ⟨0, true, 0⟩ _ = _
  rw [pollLoop_transient _ _ _ _ e rfl rfl rfl hd]
  rfl

/-- Witness for C5: the concrete two-tick run with a plain transient
error. -/
theorem c5_transient_error_retries_witness :
    Poll ⟨"ACTIVE", 30, 5, false⟩ 0
      [⟨false, .timer, .err (.plain "boom"), .timer⟩,
       ⟨false, .timer, .ok (some ⟨some "ACTIVE"⟩), .timer⟩] =
      ([.send ⟨none, some (.fromQuery (.plain "boom"))⟩ 0,
        .send ⟨some ⟨some "ACTIVE"⟩, none⟩ 5, .close], true) :=
  c5_transient_error_retries.2.2 (.plain "boom") (by decide)

/-- C6: at the interval wait, cancellation makes the run emit the
context error and close, and a stop makes it emit the distinct wait
stopped error and close; the same holds at the initial-wait grace select
(after the tick's own snapshot send and optional callback); in all four
cases the remaining actions contain no further query's events beyond the
stated sends, and the two abort error identities are distinct from each
other, from any forwarded query error, and from the unexpected-status
failure error. -/
theorem c6_cancellation_and_stop :
    (∀ (cfg : PollConfig) (st : LoopState) (t : TickInput Cluster)
       (rest : List (TickInput Cluster)),
      t.guardCancelled = false → t.sel = .ctxDone →
      pollLoop cfg st (t :: rest) =
        ([.send ⟨none, some .ctxError⟩ st.now, .close], true))
  ∧ (∀ (cfg : PollConfig) (st : LoopState) (t : TickInput Cluster)
       (rest : List (TickInput Cluster)),
      t.guardCancelled = false → t.sel = .stopped →
      pollLoop cfg st (t :: rest) =
        ([.send ⟨none, some .waitStopped⟩ st.now, .close], true))
  ∧ (∀ (cfg : PollConfig) (st : LoopState) (t : TickInput Cluster)
       (rest : List (TickInput Cluster)) (c : Cluster),
      t.guardCancelled = false → t.sel = .timer → t.query = .ok (some c) →
      stringValue c.status ≠ cfg.desired → stringValue c.status ≠ ClusterStatusFailed →
      st.first = true → t.graceSel = .ctxDone →
      pollLoop cfg st (t :: rest) =
        (tickPre (⟨some c, none⟩ : ClusterStatus) cfg.hasQueryFunc (st.now + st.waitDur) ++
          [.send ⟨none, some .ctxError⟩ (st.now + st.waitDur), .close], true))
  ∧ (∀ (cfg : PollConfig) (st : LoopState) (t : TickInput Cluster)
       (rest : List (TickInput Cluster)) (c : Cluster),
      t.guardCancelled = false → t.sel = .timer → t.query = .ok (some c) →
      stringValue c.status ≠ cfg.desired → stringValue c.status ≠ ClusterStatusFailed →
      st.first = true → t.graceSel = .stopped →
      pollLoop cfg st (t :: rest) =
        (tickPre (⟨some c, none⟩ : ClusterStatus) cfg.hasQueryFunc (st.now + st.waitDur) ++
          [.send ⟨none, some .waitStopped⟩ (st.now + st.waitDur), .close], true))
  ∧ (PollError.ctxError ≠ PollError.waitStopped
      ∧ ∀ (e : GoErr) (s : String),
          PollError.ctxError ≠ PollError.fromQuery e
          ∧ PollError.waitStopped ≠ PollError.fromQuery e
          ∧ PollError.ctxError ≠ PollError.unexpectedStatus s
          ∧ PollError.waitStopped ≠ PollError.unexpectedStatus s) := by
  refine ⟨fun cfg st t rest hg hs => pollLoop_ctxDone cfg st t rest hg hs,
    fun cfg st t rest hg hs => pollLoop_stopped cfg st t rest hg hs,
    fun cfg st t rest c hg hs hq hne hnf hf hgr =>
      pollLoop_progress_graceCtxDone cfg st t rest c hg hs hq hne hnf hf hgr,
    fun cfg st t rest c hg hs hq hne hnf hf hgr =>
      pollLoop_progress_graceStopped cfg st t rest c hg hs hq hne hnf hf hgr,
    by simp, ?_⟩
  intro e s
  refine ⟨by simp, by simp, by simp, by simp⟩

/-- Witness for C6: cancellation observed at the very first wait emits
the context error and closes with no query issued. -/
theorem c6_cancellation_and_stop_witness :
    pollLoop ⟨"ACTIVE", 30, 5, false⟩ ⟨0, true, 7⟩
      [⟨false, .ctxDone, .ok none, .timer⟩] =
      ([.send ⟨none, some .ctxError⟩ 7, .close], true) :=
  c6_cancellation_and_stop.1 ⟨"ACTIVE", 30, 5, false⟩ ⟨0, true, 7⟩
    ⟨false, .ctxDone, .ok none, .timer⟩ [] rfl rfl

/-- C9: when the desired status equals a hardcoded failure value, the
desired-status case of the switch takes precedence: the run emits the
snapshot with a nil error and terminates successfully, for Poll with
desired FAILED and for PollUpdate with desired Cancelled or Failed. -/
theorem c9_desired_takes_precedence :
    (∀ (st : LoopState) (t : TickInput Cluster) (rest : List (TickInput Cluster))
       (c : Cluster) (iw pi : Nat) (cb : Bool),
      t.guardCancelled = false → t.sel = .timer → t.query = .ok (some c) →
      stringValue c.status = ClusterStatusFailed →
      pollLoop ⟨ClusterStatusFailed, iw, pi, cb⟩ st (t :: rest) =
        ([.send ⟨some c, none⟩ (st.now + st.waitDur), .close], true))
  ∧ (∀ (st : LoopState) (t : TickInput Update) (rest : List (TickInput Update))
       (u : Update) (iw pi : Nat) (cb : Bool),
      t.guardCancelled = false → t.sel = .timer → t.query = .ok (some u) →
      stringValue u.status = UpdateStatusCancelled →
      pollUpdateLoop ⟨UpdateStatusCancelled, iw, pi, cb⟩ st (t :: rest) =
        ([.send ⟨some u, none⟩ (st.now + st.waitDur), .close], true))
  ∧ (∀ (st : LoopState) (t : TickInput Update) (rest : List (TickInput Update))
       (u : Update) (iw pi : Nat) (cb : Bool),
      t.guardCancelled = false → t.sel = .timer → t.query = .ok (some u) →
      stringValue u.status = UpdateStatusFailed →
      pollUpdateLoop ⟨UpdateStatusFailed, iw, pi, cb⟩ st (t :: rest) =
        ([.send ⟨some u, none⟩ (st.now + st.waitDur), .close], true)) :=
  ⟨fun st t rest c iw pi cb hg hs hq hst =>
      pollLoop_desired ⟨ClusterStatusFailed, iw, pi, cb⟩ st t rest c hg hs hq hst,
    fun st t rest u iw pi cb hg hs hq hst =>
      pollUpdateLoop_desired ⟨UpdateStatusCancelled, iw, pi, cb⟩ st t rest u hg hs hq hst,
    fun st t rest u iw pi cb hg hs hq hst =>
      pollUpdateLoop_desired ⟨UpdateStatusFailed, iw, pi, cb⟩ st t rest u hg hs hq hst⟩

/-- Witness for C9: desired FAILED observing FAILED closes as success. -/
theorem c9_desired_takes_precedence_witness :
    pollLoop ⟨ClusterStatusFailed, 30, 5, false⟩ ⟨0, true, 0⟩
      [⟨false, .timer, .ok (some ⟨some "FAILED"⟩), .timer⟩] =
      ([.send ⟨some ⟨some "FAILED"⟩, none⟩ 0, .close], true) :=
  c9_desired_takes_precedence.1 ⟨0, true, 0⟩
    ⟨false, .timer, .ok (some ⟨some "FAILED"⟩), .timer⟩ [] ⟨some "FAILED"⟩ 30 5 false
    rfl rfl rfl rfl

/-- C10: PollUpdate has no expected-absence success path: for every
configuration (in particular every desired update status) and any point
in the run, a query error classified by updateNotExists terminates the
run with that error — the remaining actions are exactly the error event
and the close, never a success event. -/
theorem c10_update_absence_always_fatal (cfg : PollConfig) (st : LoopState)
    (t : TickInput Update) (rest : List (TickInput Update)) (e : GoErr)
    (hg : t.guardCancelled = false) (hs : t.sel = .timer)
    (hq : t.query = .err e) (hd : updateNotExists (some e) = true) :
    pollUpdateLoop cfg st (t :: rest) =
      ([.send ⟨none, some (.fromQuery e)⟩ (st.now + st.waitDur), .close], true) :=
  pollUpdateLoop_notExists cfg st t rest e hg hs hq hd

/-- Witness for C10: even when the desired status names absence-like
completion, an update-not-found error is fatal. -/
theorem c10_update_absence_always_fatal_witness :
    pollUpdateLoop ⟨"Cancelled", 30, 5, false⟩ ⟨0, true, 0⟩
      [⟨false, .timer, .err (.plain "No update found for ID: 1"), .timer⟩] =
      ([.send ⟨none, some (.fromQuery (.plain "No update found for ID: 1"))⟩ 0,
        .close], true) :=
  c10_update_absence_always_fatal ⟨"Cancelled", 30, 5, false⟩ ⟨0, true, 0⟩
    ⟨false, .timer, .err (.plain "No update found for ID: 1"), .timer⟩ [] _
    rfl rfl rfl (by decide)

theorem ite_true_or (b c : Bool) :
    ((if b = true then true else c) = true) ↔ (b = true ∨ c = true) := by
  cases b <;> simp

/-- C7: IsDeleted holds exactly on non-nil errors that are either a
structured AWS error with code ResourceNotFoundException and a message
starting with `No cluster found for`, or whose full text contains the
free-text fallback `No cluster found for name: `; updateNotExists is the
analogue with message prefix `No update found for` and fallback
`No update found`; both return false on a nil error. -/
theorem c7_absence_classifiers :
    (∀ oe : Option GoErr, IsDeleted oe = true ↔
      ∃ e, oe = some e ∧
        ((∃ code message full, e = GoErr.awsError code message full ∧
            code = "ResourceNotFoundException" ∧
            message.startsWith "No cluster found for" = true) ∨
          strContains e.fullText "No cluster found for name: " = true))
  ∧ (∀ oe : Option GoErr, updateNotExists oe = true ↔
      ∃ e, oe = some e ∧
        ((∃ code message full, e = GoErr.awsError code message full ∧
            code = "ResourceNotFoundException" ∧
            message.startsWith "No update found for" = true) ∨
          strContains e.fullText "No update found" = true))
  ∧ IsDeleted none = false ∧ updateNotExists none = false := by
  refine ⟨?_, ?_, rfl, rfl⟩
  · intro oe
    rcases oe with _ | (⟨c, m, f⟩ | f)
    · exact ⟨fun h => Bool.noConfusion h, fun ⟨e, he, hcase⟩ => Option.noConfusion he⟩
    · have hval : IsDeleted (some (GoErr.awsError c m f)) =
          (if (decide (c = "ResourceNotFoundException") &&
              m.startsWith "No cluster found for") = true then true
           else strContains f "No cluster found for name: ") := rfl
      rw [hval, ite_true_or]
      constructor
      · intro h
        rcases h with hb | hc
        · rcases Bool.and_eq_true_iff.mp hb with ⟨h1, h2⟩
          exact ⟨_, rfl, Or.inl ⟨c, m, f, rfl, of_decide_eq_true h1, h2⟩⟩
        · exact ⟨_, rfl, Or.inr hc⟩
      · rintro ⟨e, he, hcase⟩
        injection he with he
        subst he
        rcases hcase with ⟨c', m', f', heq, h1, h2⟩ | hc
        · injection heq with e1 e2 e3
          subst e1
          subst e2
          exact Or.inl (Bool.and_eq_true_iff.mpr ⟨decide_eq_true h1, h2⟩)
        · exact Or.inr hc
    · constructor
      · intro h
        exact ⟨_, rfl, Or.inr h⟩
      · rintro ⟨e, he, hcase⟩
        injection he with he
        subst he
        rcases hcase with ⟨c', m', f', heq, -, -⟩ | hc
        · cases heq
        · exact hc
  · intro oe
    rcases oe with _ | (⟨c, m, f⟩ | f)
    · exact ⟨fun h => Bool.noConfusion h, fun ⟨e, he, hcase⟩ => Option.noConfusion he⟩
    · have hval : updateNotExists (some (GoErr.awsError c m f)) =
          (if (decide (c = "ResourceNotFoundException") &&
              m.startsWith "No update found for") = true then true
           else strContains f "No update found") := rfl
      rw [hval, ite_true_or]
      constructor
      · intro h
        rcases h with hb | hc
        · rcases Bool.and_eq_true_iff.mp hb with ⟨h1, h2⟩
          exact ⟨_, rfl, Or.inl ⟨c, m, f, rfl, of_decide_eq_true h1, h2⟩⟩
        · exact ⟨_, rfl, Or.inr hc⟩
      · rintro ⟨e, he, hcase⟩
        injection he with he
        subst he
        rcases hcase with ⟨c', m', f', heq, h1, h2⟩ | hc
        · injection heq with e1 e2 e3
          subst e1
          subst e2
          exact Or.inl (Bool.and_eq_true_iff.mpr ⟨decide_eq_true h1, h2⟩)
        · exact Or.inr hc
    · constructor
      · intro h
        exact ⟨_, rfl, Or.inr h⟩
      · rintro ⟨e, he, hcase⟩
        injection he with he
        subst he
        rcases hcase with ⟨c', m', f', heq, -, -⟩ | hc
        · cases heq
        · exact hc

/-- Witness for C7: a precisely-coded error and a free-text fallback are
both classified as absence. -/
theorem c7_absence_classifiers_witness :
    IsDeleted (some (GoErr.awsError "ResourceNotFoundException"
      "No cluster found for name: x"
      "ResourceNotFoundException: No cluster found for name: x")) = true
    ∧ updateNotExists (some (GoErr.plain "No update found for ID: 1")) = true :=
  ⟨(c7_absence_classifiers.1 _).mpr ⟨_, rfl, Or.inr (by decide)⟩,
   (c7_absence_classifiers.2.1 _).mpr ⟨_, rfl, Or.inr (by decide)⟩⟩

theorem sentEvents_append {ev : Type} (l1 l2 : List (RunAction ev)) :
    sentEvents (l1 ++ l2) = sentEvents l1 ++ sentEvents l2 := by
  induction l1 with
  | nil => rfl
  | cons a l ih => cases a <;> simp [sentEvents, ih]

theorem sentEvents_tickPre {ev : Type} (e : ev) (b : Bool) (n : Nat) :
    sentEvents (tickPre e b n) = [e] := by
  cases b <;> rfl

theorem pollLoop_events_aux (cfg : PollConfig) (st : LoopState)
    (env : List (TickInput Cluster)) :
    ∀ x : ClusterStatus, x ∈ sentEvents (pollLoop cfg st env).1 →
      ((x.cluster = none ∧ x.error = none) →
        cfg.desired = ClusterStatusDELETEDORNOTEXIST)
      ∧ (∀ c, x.cluster = some c →
          x.error = none ∨ x.error = some (.unexpectedStatus ClusterStatusFailed)) := by
  induction env generalizing st with
  | nil => intro x hm; simp [pollLoop, sentEvents] at hm
  | cons t rest ih =>
    intro x hm
    by_cases hg : t.guardCancelled = true
    · rw [pollLoop_guard cfg st t rest hg] at hm
      simp [sentEvents] at hm
      simp [hm]
    · have hg' : t.guardCancelled = false := by simpa using hg
      cases hsel : t.sel with
      | ctxDone =>
        rw [pollLoop_ctxDone cfg st t rest hg' hsel] at hm
        simp [sentEvents] at hm
        simp [hm]
      | stopped =>
        rw [pollLoop_stopped cfg st t rest hg' hsel] at hm
        simp [sentEvents] at hm
        simp [hm]
      | timer =>
        cases hq : t.query with
        | err e =>
          by_cases hd : IsDeleted (some e) = true
          · by_cases hdes : cfg.desired = ClusterStatusDELETEDORNOTEXIST
            · rw [pollLoop_deleted_desired cfg st t rest e hg' hsel hq hd hdes] at hm
              simp [sentEvents] at hm
              simp [hm, hdes]
            · rw [pollLoop_deleted_other cfg st t rest e hg' hsel hq hd hdes] at hm
              simp [sentEvents] at hm
              simp [hm]
          · have hd' : IsDeleted (some e) = false := by simpa using hd
            rw [pollLoop_transient cfg st t rest e hg' hsel hq hd'] at hm
            rw [withPre_fst, sentEvents_append] at hm
            rcases List.mem_append.mp hm with hm1 | hm2
            · simp [sentEvents] at hm1
              simp [hm1]
            · exact ih _ _ hm2
        | ok payload =>
          cases payload with
          | none =>
            rw [pollLoop_emptyPayload cfg st t rest hg' hsel hq] at hm
            rw [withPre_fst, sentEvents_append] at hm
            rcases List.mem_append.mp hm with hm1 | hm2
            · simp [sentEvents] at hm1
              simp [hm1]
            · exact ih _ _ hm2
          | some c =>
            by_cases hst : stringValue c.status = cfg.desired
            · rw [pollLoop_desired cfg st t rest c hg' hsel hq hst] at hm
              simp [sentEvents] at hm
              simp [hm]
            · by_cases hsf : stringValue c.status = ClusterStatusFailed
              · rw [pollLoop_failed cfg st t rest c hg' hsel hq hst hsf] at hm
                simp [sentEvents] at hm
                simp [hm]
              · by_cases hf : st.first = true
                · cases hgr : t.graceSel with
                  | ctxDone =>
                    rw [pollLoop_progress_graceCtxDone cfg st t rest c hg' hsel hq hst hsf
                      hf hgr] at hm
                    rw [sentEvents_append, sentEvents_tickPre] at hm
                    rcases List.mem_append.mp hm with hm1 | hm2
                    · simp at hm1
                      simp [hm1]
                    · simp [sentEvents] at hm2
                      simp [hm2]
                  | stopped =>
                    rw [pollLoop_progress_graceStopped cfg st t rest c hg' hsel hq hst hsf
                      hf hgr] at hm
                    rw [sentEvents_append, sentEvents_tickPre] at hm
                    rcases List.mem_append.mp hm with hm1 | hm2
                    · simp at hm1
                      simp [hm1]
                    · simp [sentEvents] at hm2
                      simp [hm2]
                  | timer =>
                    rw [pollLoop_progress_graceTimer cfg st t rest c hg' hsel hq hst hsf
                      hf hgr] at hm
                    rw [withPre_fst, sentEvents_append, sentEvents_tickPre] at hm
                    rcases List.mem_append.mp hm with hm1 | hm2
                    · simp at hm1
                      simp [hm1]
                    · exact ih _ _ hm2
                · have hf' : st.first = false := by simpa using hf
                  rw [pollLoop_progress_notFirst cfg st t rest c hg' hsel hq hst hsf hf'] at hm
                  rw [withPre_fst, sentEvents_append, sentEvents_tickPre] at hm
                  rcases List.mem_append.mp hm with hm1 | hm2
                  · simp at hm1
                    simp [hm1]
                  · exact ih _ _ hm2

theorem pollUpdateLoop_events_aux (cfg : PollConfig) (st : LoopState)
    (env : List (TickInput Update)) :
    ∀ x : UpdateStatus, x ∈ sentEvents (pollUpdateLoop cfg st env).1 →
      (¬(x.update = none ∧ x.error = none))
      ∧ (∀ u, x.update = some u →
          x.error = none ∨ x.error = some (.unexpectedStatus UpdateStatusCancelled)
            ∨ x.error = some (.unexpectedStatus UpdateStatusFailed)) := by
  induction env generalizing st with
  | nil => intro x hm; simp [pollUpdateLoop, sentEvents] at hm
  | cons t rest ih =>
    intro x hm
    by_cases hg : t.guardCancelled = true
    · rw [pollUpdateLoop_guard cfg st t rest hg] at hm
      simp [sentEvents] at hm
      simp [hm]
    · have hg' : t.guardCancelled = false := by simpa using hg
      cases hsel : t.sel with
      | ctxDone =>
        rw [pollUpdateLoop_ctxDone cfg st t rest hg' hsel] at hm
        simp [sentEvents] at hm
        simp [hm]
      | stopped =>
        rw [pollUpdateLoop_stopped cfg st t rest hg' hsel] at hm
        simp [sentEvents] at hm
        simp [hm]
      | timer =>
        cases hq : t.query with
        | err e =>
          by_cases hd : updateNotExists (some e) = true
          · rw [pollUpdateLoop_notExists cfg st t rest e hg' hsel hq hd] at hm
            simp [sentEvents] at hm
            simp [hm]
          · have hd' : updateNotExists (some e) = false := by simpa using hd
            rw [pollUpdateLoop_transient cfg st t rest e hg' hsel hq hd'] at hm
            rw [withPre_fst, sentEvents_append] at hm
            rcases List.mem_append.mp hm with hm1 | hm2
            · simp [sentEvents] at hm1
              simp [hm1]
            · exact ih _ _ hm2
        | ok payload =>
          cases payload with
          | none =>
            rw [pollUpdateLoop_emptyPayload cfg st t rest hg' hsel hq] at hm
            rw [withPre_fst, sentEvents_append] at hm
            rcases List.mem_append.mp hm with hm1 | hm2
            · simp [sentEvents] at hm1
              simp [hm1]
            · exact ih _ _ hm2
          | some u =>
            by_cases hst : stringValue u.status = cfg.desired
            · rw [pollUpdateLoop_desired cfg st t rest u hg' hsel hq hst] at hm
              simp [sentEvents] at hm
              simp [hm]
            · by_cases hsc : stringValue u.status = UpdateStatusCancelled
              · rw [pollUpdateLoop_cancelled cfg st t rest u hg' hsel hq hst hsc] at hm
                simp [sentEvents] at hm
                simp [hm]
              · by_cases hsf : stringValue u.status = UpdateStatusFailed
                · rw [pollUpdateLoop_failed cfg st t rest u hg' hsel hq hst hsc hsf] at hm
                  simp [sentEvents] at hm
                  simp [hm]
                · by_cases hf : st.first = true
                  · cases hgr : t.graceSel with
                    | ctxDone =>
                      rw [pollUpdateLoop_progress_graceCtxDone cfg st t rest u hg' hsel hq
                        hst hsc hsf hf hgr] at hm
                      rw [sentEvents_append, sentEvents_tickPre] at hm
                      rcases List.mem_append.mp hm with hm1 | hm2
                      · simp at hm1
                        simp [hm1]
                      · simp [sentEvents] at hm2
                        simp [hm2]
                    | stopped =>
                      rw [pollUpdateLoop_progress_graceStopped cfg st t rest u hg' hsel hq
                        hst hsc hsf hf hgr] at hm
                      rw [sentEvents_append, sentEvents_tickPre] at hm
                      rcases List.mem_append.mp hm with hm1 | hm2
                      · simp at hm1
                        simp [hm1]
                      · simp [sentEvents] at hm2
                        simp [hm2]
                    | timer =>
                      rw [pollUpdateLoop_progress_graceTimer cfg st t rest u hg' hsel hq
                        hst hsc hsf hf hgr] at hm
                      rw [withPre_fst, sentEvents_append, sentEvents_tickPre] at hm
                      rcases List.mem_append.mp hm with hm1 | hm2
                      · simp at hm1
                        simp [hm1]
                      · exact ih _ _ hm2
                  · have hf' : st.first = false := by simpa using hf
                    rw [pollUpdateLoop_progress_notFirst cfg st t rest u hg' hsel hq
                      hst hsc hsf hf'] at hm
                    rw [withPre_fst, sentEvents_append, sentEvents_tickPre] at hm
                    rcases List.mem_append.mp hm with hm1 | hm2
                    · simp at hm1
                      simp [hm1]
                    · exact ih _ _ hm2

/-- C4 counterexample: the claim that every emitted event has exactly
one populated field is false in both directions: the expected-absence
success path emits an event with both fields nil, and the failure-status
path emits an event with both the snapshot and the error set. -/
theorem c4_counterexample :
    ((⟨none, none⟩ : ClusterStatus) ∈ sentEvents
      (Poll ⟨ClusterStatusDELETEDORNOTEXIST, 30, 5, false⟩ 0
        [⟨false, .timer, .err (.plain "No cluster found for name: x"), .timer⟩]).1)
  ∧ ((⟨some ⟨some "FAILED"⟩, some (.unexpectedStatus ClusterStatusFailed)⟩ : ClusterStatus)
      ∈ sentEvents (Poll ⟨"ACTIVE", 30, 5, false⟩ 0
        [⟨false, .timer, .ok (some ⟨some "FAILED"⟩), .timer⟩]).1) := by
  constructor <;> decide

/-- C4 amended: every event emitted by a run has exactly one of its two
fields populated, with exactly the two exceptions the code emits: an
event with both fields nil can only be the expected-absence terminal
success of Poll (possible only when the desired status is the
deleted/not-exist sentinel — PollUpdate never emits one), and an event
carrying a snapshot together with an error is always the designated
failure-status event carrying the corresponding unexpected-status
error. -/
theorem c4_amended :
    (∀ (cfg : PollConfig) (st : LoopState) (env : List (TickInput Cluster))
       (x : ClusterStatus), x ∈ sentEvents (pollLoop cfg st env).1 →
      ((x.cluster = none ∧ x.error = none) →
        cfg.desired = ClusterStatusDELETEDORNOTEXIST)
      ∧ (∀ c, x.cluster = some c →
          x.error = none ∨ x.error = some (.unexpectedStatus ClusterStatusFailed)))
  ∧ (∀ (cfg : PollConfig) (st : LoopState) (env : List (TickInput Update))
       (x : UpdateStatus), x ∈ sentEvents (pollUpdateLoop cfg st env).1 →
      (¬(x.update = none ∧ x.error = none))
      ∧ (∀ u, x.update = some u →
          x.error = none ∨ x.error = some (.unexpectedStatus UpdateStatusCancelled)
            ∨ x.error = some (.unexpectedStatus UpdateStatusFailed))) :=
  ⟨fun cfg st env x hm => pollLoop_events_aux cfg st env x hm,
   fun cfg st env x hm => pollUpdateLoop_events_aux cfg st env x hm⟩

/-- Witness for C4 amended: the both-nil event of the expected-absence
run indeed forces the sentinel desired status. -/
theorem c4_amended_witness :
    (⟨ClusterStatusDELETEDORNOTEXIST, 30, 5, false⟩ : PollConfig).desired =
      ClusterStatusDELETEDORNOTEXIST :=
  (c4_amended.1 ⟨ClusterStatusDELETEDORNOTEXIST, 30, 5, false⟩ ⟨0, true, 0⟩
    [⟨false, .timer, .err (.plain "No cluster found for name: x"), .timer⟩]
    ⟨none, none⟩ (by decide)).1 ⟨rfl, rfl⟩

/-- C8 counterexample: a run with the callback configured whose first
tick is a non-terminal transient query error performs no callback action
at all, although that tick did not terminate the run (the trace shows a
second query's event after it) — the callback is skipped by the
transient-error retry path, so it is not invoked after every
non-terminal tick. -/
theorem c8_counterexample :
    Poll ⟨"ACTIVE", 30, 5, true⟩ 0
      [⟨false, .timer, .err (.plain "boom"), .timer⟩,
       ⟨false, .timer, .ok (some ⟨some "ACTIVE"⟩), .timer⟩] =
      ([.send ⟨none, some (.fromQuery (.plain "boom"))⟩ 0,
        .send ⟨some ⟨some "ACTIVE"⟩, none⟩ 5, .close], true)
  ∧ (Poll ⟨"ACTIVE", 30, 5, true⟩ 0
      [⟨false, .timer, .err (.plain "boom"), .timer⟩,
       ⟨false, .timer, .ok (some ⟨some "ACTIVE"⟩), .timer⟩]).1.countP isCallback = 0 := by
  constructor
  · rfl
  · rfl

/-- C8 amended: the optional per-tick callback, when configured, is
invoked exactly once immediately after each non-terminal successful
snapshot observation (the status switch's default branch); it is never
invoked on a tick that terminates the run, and — unlike the claim — it is
also not invoked on the non-terminal transient-error and empty-payload
ticks, whose retry path skips it. -/
theorem c8_amended :
    (∀ (cfg : PollConfig) (st : LoopState) (t : TickInput Cluster)
       (rest : List (TickInput Cluster)) (c : Cluster),
      t.guardCancelled = false → t.sel = .timer → t.query = .ok (some c) →
      stringValue c.status ≠ cfg.desired → stringValue c.status ≠ ClusterStatusFailed →
      st.first = false →
      pollLoop cfg st (t :: rest) =
        withPre (tickPre (⟨some c, none⟩ : ClusterStatus) cfg.hasQueryFunc (st.now + st.waitDur))
          (pollLoop cfg ⟨nextWaitDur cfg st, st.first, st.now + st.waitDur⟩ rest))
  ∧ (∀ (cfg : PollConfig) (st : LoopState) (t : TickInput Cluster)
       (rest : List (TickInput Cluster)) (c : Cluster),
      t.guardCancelled = false → t.sel = .timer → t.query = .ok (some c) →
      stringValue c.status ≠ cfg.desired → stringValue c.status ≠ ClusterStatusFailed →
      st.first = true → t.graceSel = .timer →
      pollLoop cfg st (t :: rest) =
        withPre (tickPre (⟨some c, none⟩ : ClusterStatus) cfg.hasQueryFunc (st.now + st.waitDur))
          (pollLoop cfg ⟨nextWaitDur cfg st, false, st.now + st.waitDur + cfg.initialWait⟩ rest))
  ∧ (∀ (e : ClusterStatus) (n : Nat),
      tickPre e true n = [.send e n, .callback n] ∧ tickPre e false n = [.send e n])
  ∧ (∀ (cfg : PollConfig) (st : LoopState) (t : TickInput Cluster)
       (rest : List (TickInput Cluster)) (e : GoErr),
      t.guardCancelled = false → t.sel = .timer → t.query = .err e →
      IsDeleted (some e) = false →
      (pollLoop cfg st (t :: rest)).1.countP isCallback =
        (pollLoop cfg ⟨nextWaitDur cfg st, st.first, st.now + st.waitDur⟩ rest).1.countP
          isCallback)
  ∧ (∀ (cfg : PollConfig) (st : LoopState) (t : TickInput Cluster)
       (rest : List (TickInput Cluster)),
      t.guardCancelled = false → t.sel = .timer → t.query = .ok none →
      (pollLoop cfg st (t :: rest)).1.countP isCallback =
        (pollLoop cfg ⟨nextWaitDur cfg st, st.first, st.now + st.waitDur⟩ rest).1.countP
          isCallback)
  ∧ (∀ (cfg : PollConfig) (st : LoopState) (t : TickInput Cluster)
       (rest : List (TickInput Cluster)) (c : Cluster),
      t.guardCancelled = false → t.sel = .timer → t.query = .ok (some c) →
      stringValue c.status = cfg.desired →
      (pollLoop cfg st (t :: rest)).1.countP isCallback = 0)
  ∧ (∀ (cfg : PollConfig) (st : LoopState) (t : TickInput Cluster)
       (rest : List (TickInput Cluster)) (c : Cluster),
      t.guardCancelled = false → t.sel = .timer → t.query = .ok (some c) →
      stringValue c.status ≠ cfg.desired → stringValue c.status = ClusterStatusFailed →
      (pollLoop cfg st (t :: rest)).1.countP isCallback = 0)
  ∧ (∀ (cfg : PollConfig) (st : LoopState) (t : TickInput Cluster)
       (rest : List (TickInput Cluster)) (e : GoErr),
      t.guardCancelled = false → t.sel = .timer → t.query = .err e →
      IsDeleted (some e) = true →
      (pollLoop cfg st (t :: rest)).1.countP isCallback = 0)
  ∧ (∀ (cfg : PollConfig) (st : LoopState) (t : TickInput Cluster)
       (rest : List (TickInput Cluster)),
      t.guardCancelled = true →
      (pollLoop cfg st (t :: rest)).1.countP isCallback = 0)
  ∧ (∀ (cfg : PollConfig) (st : LoopState) (t : TickInput Cluster)
       (rest : List (TickInput Cluster)),
      t.guardCancelled = false → t.sel = .ctxDone →
      (pollLoop cfg st (t :: rest)).1.countP isCallback = 0)
  ∧ (∀ (cfg : PollConfig) (st : LoopState) (t : TickInput Cluster)
       (rest : List (TickInput Cluster)),
      t.guardCancelled = false → t.sel = .stopped →
      (pollLoop cfg st (t :: rest)).1.countP isCallback = 0) := by
  refine ⟨fun cfg st t rest c hg hs hq hne hnf hf =>
      pollLoop_progress_notFirst cfg st t rest c hg hs hq hne hnf hf,
    fun cfg st t rest c hg hs hq hne hnf hf hgr =>
      pollLoop_progress_graceTimer cfg st t rest c hg hs hq hne hnf hf hgr,
    fun e n => ⟨rfl, rfl⟩, ?_, ?_, ?_, ?_, ?_, ?_, ?_, ?_⟩
  · intro cfg st t rest e hg hs hq hd
    rw [pollLoop_transient cfg st t rest e hg hs hq hd]
    simp [withPre, isCallback]
  · intro cfg st t rest hg hs hq
    rw [pollLoop_emptyPayload cfg st t rest hg hs hq]
    simp [withPre, isCallback]
  · intro cfg st t rest c hg hs hq hst
    rw [pollLoop_desired cfg st t rest c hg hs hq hst]
    rfl
  · intro cfg st t rest c hg hs hq hne hsf
    rw [pollLoop_failed cfg st t rest c hg hs hq hne hsf]
    rfl
  · intro cfg st t rest e hg hs hq hd
    by_cases hdes : cfg.desired = ClusterStatusDELETEDORNOTEXIST
    · rw [pollLoop_deleted_desired cfg st t rest e hg hs hq hd hdes]
      rfl
    · rw [pollLoop_deleted_other cfg st t rest e hg hs hq hd hdes]
      rfl
  · intro cfg st t rest hg
    rw [pollLoop_guard cfg st t rest hg]
    rfl
  · intro cfg st t rest hg hs
    rw [pollLoop_ctxDone cfg st t rest hg hs]
    rfl
  · intro cfg st t rest hg hs
    rw [pollLoop_stopped cfg st t rest hg hs]
    rfl

/-- Witness for C8 amended: a non-first CREATING tick with the callback
configured performs the snapshot send and then the callback. -/
theorem c8_amended_witness :
    pollLoop ⟨"ACTIVE", 30, 5, true⟩ ⟨5, false, 10⟩
      [⟨false, .timer, .ok (some ⟨some "CREATING"⟩), .timer⟩] =
      withPre (tickPre (⟨some ⟨some "CREATING"⟩, none⟩ : ClusterStatus) true 15)
        (pollLoop ⟨"ACTIVE", 30, 5, true⟩ ⟨5, false, 15⟩ []) :=
  c8_amended.1 ⟨"ACTIVE", 30, 5, true⟩ ⟨5, false, 10⟩
    ⟨false, .timer, .ok (some ⟨some "CREATING"⟩), .timer⟩ [] ⟨some "CREATING"⟩
    rfl rfl rfl (by decide) (by decide) rfl

end Wait
